import Mathlib

/-
Verification development for the key-value storage abstraction in src/db.py.
The module offers one facade (class Data) over two engine adapters: an ordered
Berkeley DB adapter (classes Berkeley and BSDTable) and a relational SQLite
adapter (classes SQLite and SQLTable).  The definitions below are a shallow
embedding of those classes: dictionaries become association lists, the mutable
table objects become records threaded through the operations, Python
exceptions become an explicit error type, and byte strings are identified with
the text they encode except where the distinction is observable (the str()
form of a bytes object, which the facade delete path produces).
-/

namespace Db

/-- Exception classes observable from src/db.py.  The constructors
attributeError, typeError, keyError, dbNotFoundError and operationalError
embed exceptions the interpreter or the engines raise while running the
module.  The constructors unknownIndexError, duplicateIndexError and
corruptionError embed the error names that the specification document
postulates; no class of these names is defined anywhere in the module and no
statement raises them. -/
inductive PyErr where
  | attributeError (attr : String)
  | typeError (msg : String)
  | keyError (key : String)
  | dbNotFoundError
  | operationalError (msg : String)
  | unknownIndexError
  | duplicateIndexError
  | corruptionError
  deriving DecidableEq

/-- Decidable equality of results, so concrete runs can be checked by
evaluation. -/
instance {ε α : Type} [DecidableEq ε] [DecidableEq α] : DecidableEq (Except ε α)
  | .error e, .error f =>
      if h : e = f then .isTrue (by rw [h]) else .isFalse (by intro c; cases c; exact h rfl)
  | .error _, .ok _ => .isFalse (by intro c; cases c)
  | .ok _, .error _ => .isFalse (by intro c; cases c)
  | .ok a, .ok b =>
      if h : a = b then .isTrue (by rw [h]) else .isFalse (by intro c; cases c; exact h rfl)

/-- Text form that Python str() gives a bytes object built by encoding an
ASCII string with no quote and no backslash characters: the letter b, a quote
character (code 39), the characters of the string, a closing quote.
Data.delete (src/db.py line 62) builds such a bytes object from the key and
SQLTable.delete (line 291) converts it back with str(), producing exactly this
mangled text. -/
def pyStrOfBytes (s : String) : String :=
  String.mk (Char.ofNat 98 :: Char.ofNat 39 :: (s.data ++ [Char.ofNat 39]))

/-- A Python value that is either a text string or a bytes object; only the
two forms that flow into SQLTable.delete are needed. -/
inductive PyVal where
  | pystr (s : String)
  | pybytes (s : String)
  deriving DecidableEq

/-- Python str() on a PyVal: identity on text, the mangled form on bytes. -/
def PyVal.pyStr : PyVal → String
  | .pystr s => s
  | .pybytes s => pyStrOfBytes s

/-- Lexicographic order on character lists by code point, the order in which
the Berkeley B-tree engine compares the UTF-8 byte keys the adapter hands
it (for ASCII keys the byte order and the code-point order coincide). -/
def bytesLt : List Char → List Char → Bool
  | [], [] => false
  | [], _ :: _ => true
  | _ :: _, [] => false
  | a :: as, b :: bs =>
      if a.toNat < b.toNat then true
      else if b.toNat < a.toNat then false
      else bytesLt as bs

/-- Key order of the B-tree engine, lifted to the strings the keys encode. -/
def strLt (s t : String) : Bool := bytesLt s.data t.data

/-- State change performed by db.put on a Berkeley DB_BTREE database opened
without duplicate flags (BSDTable.put, src/db.py line 220, delegates to it):
entries are kept sorted by key and putting an existing key overwrites its
value in place. -/
def btreeInsert (k v : String) : List (String × String) → List (String × String)
  | [] => [(k, v)]
  | e :: rest =>
      if strLt k e.1 then (k, v) :: e :: rest
      else if k == e.1 then (k, v) :: rest
      else e :: btreeInsert k v rest

/-- BSDTable (src/db.py lines 211 to 227): the table name, the underlying
B-tree contents (sorted by key, keys unique), and the cursor slot set to False
by Table.__init__ (line 123) and driven by the iteration protocol of
Table.__next__ (lines 129 to 137).  An open cursor is modelled by the list of
entries it has not yet yielded.  Keys and values are stored as the UTF-8
encodings of the strings handed to put, so equality of stored byte keys
coincides with equality of the strings. -/
structure BSDTable where
  name : String
  btree : List (String × String)
  cursor : Option (List (String × String))
  deriving DecidableEq

/-- BSDTable.put (src/db.py lines 218 to 220): encodes key and data and
stores them with db.put. -/
def BSDTable.put (t : BSDTable) (key data : String) : BSDTable :=
  { t with btree := btreeInsert key data t.btree }

/-- BSDTable.get (src/db.py lines 222 to 224): data = self.db.get(key.encode())
is the stored value, or None when the key is absent; the method returns
data.decode() unconditionally, so on an absent key Python raises
AttributeError because None has no attribute decode. -/
def BSDTable.get (t : BSDTable) (key : String) : Except PyErr String :=
  match t.btree.find? (fun e => e.1 == key) with
  | some e => .ok e.2
  | none => .error (.attributeError "decode")

/-- Table.delete (src/db.py lines 145 to 146), the path the ordered backend
inherits: db.delete removes the entry for the key; when the key is not present
the engine raises DBNotFoundError. -/
def BSDTable.delete (t : BSDTable) (key : String) : Except PyErr BSDTable :=
  if t.btree.any (fun e => e.1 == key) then
    .ok { t with btree := t.btree.filter (fun e => !(e.1 == key)) }
  else
    .error .dbNotFoundError

/-- Table.__next__ (src/db.py lines 129 to 137): when no cursor is open one is
opened on the B-tree, the cursor is asked for the next entry, and on
exhaustion the cursor is closed, the slot reset to False and StopIteration
raised (modelled as a none result). -/
def BSDTable.nextStep (t : BSDTable) : Option (String × String) × BSDTable :=
  match t.cursor with
  | none =>
      match t.btree with
      | [] => (none, { t with cursor := none })
      | e :: rest => (some e, { t with cursor := some rest })
  | some [] => (none, { t with cursor := none })
  | some (e :: rest) => (some e, { t with cursor := some rest })

/-- Runs the iteration protocol of Table.__next__ at most the given number of
steps or until StopIteration, collecting the yielded pairs in order. -/
def bsdRunIter : Nat → BSDTable → List (String × String) × BSDTable
  | 0, t => ([], t)
  | n + 1, t =>
      match t.nextStep with
      | (none, t1) => ([], t1)
      | (some e, t1) =>
          let r := bsdRunIter n t1
          (e :: r.1, r.2)

/-- SQLTable (src/db.py lines 253 to 318): the relation is a two-column
(key, value) table; rows are listed in rowid order, which is the order SQLite
returns them for an unordered SELECT and the order INSERT appends them in.
The cursor slot is False initially (Table.__init__, line 123) and an executed
SELECT is modelled by the rows it has not yet fetched.  The indexes attribute
is the dict bound by Table.__init__ (line 124), here the list of its keys. -/
structure SQLTable where
  name : String
  rows : List (String × String)
  cursor : Option (List (String × String))
  indexes : List String
  deriving DecidableEq

/-- SQLTable.get (src/db.py lines 283 to 288): SELECT value WHERE key matches,
fetchone takes the first matching row in rowid order; a row is returned even
when the stored value is the empty string (a one-element tuple is truthy), and
an absent key yields None. -/
def SQLTable.get (t : SQLTable) (key : String) : Option String :=
  (t.rows.find? (fun r => r.1 == key)).map (fun r => r.2)

/-- SQLTable.put (src/db.py lines 275 to 281) with sql_statement (lines 306 to
318): the guard is Python truthiness of self.get(key), so both an absent key
(None) and a stored empty string take the INSERT branch, which appends a new
row; otherwise the UPDATE branch rewrites every row whose key matches.  The
keyword index arguments of put are not exercised by any claim and are
omitted. -/
def SQLTable.put (t : SQLTable) (key data : String) : SQLTable :=
  match t.get key with
  | none => { t with rows := t.rows ++ [(key, data)] }
  | some v =>
      if v == "" then { t with rows := t.rows ++ [(key, data)] }
      else { t with rows := t.rows.map (fun r => if r.1 == key then (key, data) else r) }

/-- SQLTable.delete (src/db.py lines 290 to 293): key = str(key), then DELETE
every row whose key column equals that string.  Called through the facade,
the argument is the bytes object built at line 62, whose str() form is
pyStrOfBytes of the original key. -/
def SQLTable.delete (t : SQLTable) (key : PyVal) : SQLTable :=
  { t with rows := t.rows.filter (fun r => !(r.1 == key.pyStr)) }

/-- SQLTable.__len__ (src/db.py lines 260 to 262): COUNT of all rows. -/
def SQLTable.len (t : SQLTable) : Nat := t.rows.length

/-- SQLTable.__next__ (src/db.py lines 264 to 273): when no cursor is open the
SELECT is executed, producing the row sequence; fetchone takes the next row;
when it yields None the cursor slot is reset to False and StopIteration is
raised (modelled as a none result). -/
def SQLTable.nextStep (t : SQLTable) : Option (String × String) × SQLTable :=
  match t.cursor with
  | none =>
      match t.rows with
      | [] => (none, { t with cursor := none })
      | r :: rest => (some r, { t with cursor := some rest })
  | some [] => (none, { t with cursor := none })
  | some (r :: rest) => (some r, { t with cursor := some rest })

/-- Runs the iteration protocol of SQLTable.__next__ at most the given number
of steps or until StopIteration, collecting the yielded pairs in order. -/
def sqlRunIter : Nat → SQLTable → List (String × String) × SQLTable
  | 0, t => ([], t)
  | n + 1, t =>
      match t.nextStep with
      | (none, t1) => ([], t1)
      | (some r, t1) =>
          let res := sqlRunIter n t1
          (r :: res.1, res.2)

/-- SQLTable.add_index (src/db.py lines 295 to 304).  When the name is already
a key of the indexes dict, the method executes a raise statement whose operand
is a plain string; Python 3 rejects that with TypeError (exceptions must
derive from BaseException).  Otherwise it executes ALTER TABLE ... ADD COLUMN
with a ? parameter placeholder in the column-name position, which SQLite
rejects with OperationalError before the registry line (which would itself
fail, dicts have no append) is reached. -/
def SQLTable.addIndex (t : SQLTable) (index : String) : Except PyErr SQLTable :=
  if t.indexes.contains index then
    .error (.typeError "exceptions must derive from BaseException")
  else
    .error (.operationalError "near ?: syntax error")

/-- Lookup of a name in a Python dict modelled as an association list. -/
def lookupEntry {α : Type} (l : List (String × α)) (name : String) : Option (String × α) :=
  l.find? (fun p => p.1 == name)

/-- Rebinding of a name in a Python dict modelled as an association list. -/
def setEntry {α : Type} (l : List (String × α)) (name : String) (a : α) : List (String × α) :=
  l.map (fun p => if p.1 == name then (p.1, a) else p)

/-- A secondary-index handle as Berkeley.close expects to find it: a possibly
open cursor and an open index database (src/db.py lines 199 to 204). -/
structure IndexHandle where
  cursorOpen : Bool
  dbOpen : Bool
  deriving DecidableEq

/-- The Berkeley facade (src/db.py lines 155 to 209): class Berkeley extends
Data.  Its attributes are path and the table dict (Data.__init__, lines 39 to
43) and the environment handle (Berkeley.__init__, lines 160 to 170);
envClosed records whether env.close has run. -/
structure Berkeley where
  path : String
  tables : List (String × BSDTable)
  envClosed : Bool
  deriving DecidableEq

/-- Data.assert_exist (src/db.py lines 83 to 85) on the Berkeley facade: a
name not in the table dict is passed to Berkeley.open (lines 192 to 196),
which opens the named file with DB_CREATE, giving an empty B-tree in a fresh
environment, wraps it in a BSDTable and binds it in the dict (Data.open,
lines 79 to 81).  Returns the facade together with the table bound to the
name. -/
def Berkeley.assertExist (st : Berkeley) (name : String) : Berkeley × BSDTable :=
  match lookupEntry st.tables name with
  | some p => (st, p.2)
  | none =>
      let t : BSDTable := { name := name, btree := [], cursor := none }
      ({ st with tables := st.tables ++ [(name, t)] }, t)

/-- Data.put (src/db.py lines 51 to 53) on the Berkeley facade: auto-open,
then delegate to BSDTable.put with key and data unchanged. -/
def Berkeley.put (st : Berkeley) (name key data : String) : Berkeley :=
  let st1 := (st.assertExist name).1
  let t := (st.assertExist name).2
  { st1 with tables := setEntry st1.tables name (t.put key data) }

/-- Data.get (src/db.py lines 55 to 58) on the Berkeley facade: auto-open,
then delegate to BSDTable.get with the key unchanged. -/
def Berkeley.get (st : Berkeley) (name key : String) : Berkeley × Except PyErr String :=
  let st1 := (st.assertExist name).1
  let t := (st.assertExist name).2
  (st1, t.get key)

/-- Data.delete (src/db.py lines 60 to 63) on the Berkeley facade: auto-open,
key = str(key).encode(), then Table.delete hands the bytes to db.delete.  The
stored keys are the encodings of the put keys, so the byte comparison agrees
with String equality on the original key. -/
def Berkeley.delete (st : Berkeley) (name key : String) : Berkeley × Except PyErr Unit :=
  let st1 := (st.assertExist name).1
  let t := (st.assertExist name).2
  match t.delete key with
  | .ok t1 => ({ st1 with tables := setEntry st1.tables name t1 }, .ok ())
  | .error e => (st1, .error e)

/-- Data.verify (src/db.py lines 65 to 66): subscripts self.tables with the
name directly, with no assert_exist call, so an unknown name raises KeyError;
a known name delegates to Table.verify, the engine integrity check. -/
def Berkeley.verifyOp (st : Berkeley) (name : String) : Except PyErr Unit :=
  match lookupEntry st.tables name with
  | none => .error (.keyError name)
  | some _ => .ok ()

/-- Data.table (src/db.py lines 68 to 77) on the Berkeley facade: with no
selector the table bound to the name is returned after auto-open.  With a
selector pair (k, v) the code evaluates getattr(table, k) and then sets
cursor_value on the result.  A BSDTable instance owns exactly the attributes
bound in BSDTable.__init__ (db, line 215) and Table.__init__ (name, cursor,
indexes, lines 122 to 124); no statement in the module ever binds an Index
object as an attribute of a Table instance (Berkeley.add_index line 181 binds
it on the facade itself), so for a selector name outside those fields getattr
raises AttributeError, and for a selector naming one of those fields the
subsequent setattr of cursor_value on a str, bool or dict builtin raises
AttributeError as well.  Either way the call raises AttributeError and never
returns an index object. -/
def Berkeley.tableSel (st : Berkeley) (name : String) (sel : Option (String × String)) :
    Berkeley × Except PyErr BSDTable :=
  let st1 := (st.assertExist name).1
  let t := (st.assertExist name).2
  match sel with
  | none => (st1, .ok t)
  | some kv => (st1, .error (.attributeError kv.1))

/-- Berkeley.add_index (src/db.py lines 175 to 190).  When the index name is a
key of the table dict, the method executes a raise statement whose operand is
a plain string; Python 3 rejects that with TypeError (exceptions must derive
from BaseException).  Otherwise it binds an Index object as an attribute of
the facade, opens the index file, and then evaluates self.db.associate: the
facade has no db attribute (its attributes are path, tables, env and any
previously bound index names), so getattr raises AttributeError for db --
except when the index being added is itself named db, in which case the
freshly bound Index object is found and the lookup of its associate attribute
raises AttributeError instead.  The registry line self.indexes.append is never
reached. -/
def Berkeley.addIndex (st : Berkeley) (index : String)
    (_indexCallback : String → String → String) (_table : String) :
    Except PyErr Berkeley :=
  if (lookupEntry st.tables index).isSome then
    .error (.typeError "exceptions must derive from BaseException")
  else if index == "db" then
    .error (.attributeError "associate")
  else
    .error (.attributeError "db")

/-- Attribute lookup of indexes on the Berkeley facade, as performed by the
first statement of Berkeley.close (src/db.py line 199).  The facade object
only ever receives the attributes path and tables (Data.__init__, lines 39 to
43), env (Berkeley.__init__, lines 160 to 170) and index names bound by
add_index (line 181); no assignment anywhere in the module binds indexes on
the facade (Table.__init__ line 124 binds it on Table instances only, and
Berkeley.add_index line 190 reads, never binds, it), so the lookup fails. -/
def Berkeley.indexesAttr (_st : Berkeley) : Option (List IndexHandle) := none

/-- Berkeley.close (src/db.py lines 198 to 209): iterate self.indexes closing
index cursors and handles, then close every table cursor and handle, then
close the environment.  The first step already fails: the indexes attribute
lookup raises AttributeError, so nothing is closed. -/
def Berkeley.close (st : Berkeley) : Except PyErr Berkeley :=
  match st.indexesAttr with
  | none => .error (.attributeError "indexes")
  | some _idxs =>
      .ok { st with
              tables := st.tables.map (fun p => (p.1, { p.2 with cursor := none })),
              envClosed := true }

/-- Berkeley.__exit__ (src/db.py lines 172 to 173): calls close on every exit
path of the scope, normal or exceptional. -/
def Berkeley.exitScope (st : Berkeley) : Except PyErr Berkeley :=
  st.close

/-- The SQLite facade (src/db.py lines 230 to 250): class SQLite extends
Data; it holds the table dict and the shared connection. -/
structure SQLite where
  tables : List (String × SQLTable)
  deriving DecidableEq

/-- Data.assert_exist (src/db.py lines 83 to 85) on the SQLite facade: a name
not in the table dict is passed to SQLite.open (lines 244 to 250), which
creates the relation when sqlite_master lacks it -- empty in a fresh database
file -- wraps it in a SQLTable and binds it in the dict. -/
def SQLite.assertExist (st : SQLite) (name : String) : SQLite × SQLTable :=
  match lookupEntry st.tables name with
  | some p => (st, p.2)
  | none =>
      let t : SQLTable := { name := name, rows := [], cursor := none, indexes := [] }
      ({ st with tables := st.tables ++ [(name, t)] }, t)

/-- Data.put (src/db.py lines 51 to 53) on the SQLite facade: auto-open, then
delegate to SQLTable.put with key and data unchanged. -/
def SQLite.put (st : SQLite) (name key data : String) : SQLite :=
  let st1 := (st.assertExist name).1
  let t := (st.assertExist name).2
  { st1 with tables := setEntry st1.tables name (t.put key data) }

/-- Data.get (src/db.py lines 55 to 58) on the SQLite facade: auto-open, then
delegate to SQLTable.get with the key unchanged. -/
def SQLite.get (st : SQLite) (name key : String) : SQLite × Option String :=
  let st1 := (st.assertExist name).1
  let t := (st.assertExist name).2
  (st1, t.get key)

/-- Data.delete (src/db.py lines 60 to 63) on the SQLite facade: auto-open,
key = str(key).encode(), then SQLTable.delete receives the bytes object. -/
def SQLite.delete (st : SQLite) (name key : String) : SQLite :=
  let st1 := (st.assertExist name).1
  let t := (st.assertExist name).2
  { st1 with tables := setEntry st1.tables name (t.delete (.pybytes key)) }

/-! Helper lemmas about the key order of the B-tree engine. -/

theorem bytesLt_irrefl : ∀ l : List Char, bytesLt l l = false
  | [] => rfl
  | a :: as => by
      simp only [bytesLt, Nat.lt_irrefl, if_false]
      exact bytesLt_irrefl as

theorem bytesLt_trans : ∀ (a b c : List Char),
    bytesLt a b = true → bytesLt b c = true → bytesLt a c = true
  | [], _ :: _, _ :: _, _, _ => rfl
  | [], [], _, h1, _ => by cases h1
  | [], _ :: _, [], _, h2 => by cases h2
  | _ :: _, [], _, h1, _ => by cases h1
  | _ :: _, _ :: _, [], _, h2 => by cases h2
  | x :: xs, y :: ys, z :: zs, h1, h2 => by
      simp only [bytesLt] at h1 h2 ⊢
      by_cases hxy : x.toNat < y.toNat
      · by_cases hyz : y.toNat < z.toNat
        · simp [Nat.lt_trans hxy hyz]
        · rw [if_neg hyz] at h2
          by_cases hzy : z.toNat < y.toNat
          · rw [if_pos hzy] at h2; cases h2
          · rw [if_neg hzy] at h2
            have hxz : x.toNat < z.toNat := by omega
            simp [hxz]
      · rw [if_neg hxy] at h1
        by_cases hyx : y.toNat < x.toNat
        · rw [if_pos hyx] at h1; cases h1
        · rw [if_neg hyx] at h1
          by_cases hyz : y.toNat < z.toNat
          · have hxz : x.toNat < z.toNat := by omega
            simp [hxz]
          · rw [if_neg hyz] at h2
            by_cases hzy : z.toNat < y.toNat
            · rw [if_pos hzy] at h2; cases h2
            · rw [if_neg hzy] at h2
              have hxz : ¬ x.toNat < z.toNat := by omega
              have hzx : ¬ z.toNat < x.toNat := by omega
              rw [if_neg hxz, if_neg hzx]
              exact bytesLt_trans xs ys zs h1 h2

theorem strLt_irrefl (s : String) : strLt s s = false :=
  bytesLt_irrefl s.data

theorem strLt_trans {a b c : String} (h1 : strLt a b = true) (h2 : strLt b c = true) :
    strLt a c = true :=
  bytesLt_trans a.data b.data c.data h1 h2

theorem strLt_ne {a b : String} (h : strLt a b = true) : a ≠ b := by
  intro e
  rw [e, strLt_irrefl] at h
  cases h

/-! Helper lemmas about lookup, filter and find on association lists. -/

theorem find?_filter_ne : ∀ (rows : List (String × String)) (k m : String), m ≠ k →
    (rows.filter (fun r => !(r.1 == m))).find? (fun r => r.1 == k)
      = rows.find? (fun r => r.1 == k)
  | [], _, _, _ => rfl
  | r :: rs, k, m, h => by
      cases hbm : (r.1 == m) with
      | true =>
          have hm : r.1 = m := by simpa using hbm
          have hbk : (r.1 == k) = false := by simp [hm, h]
          simp only [List.filter, hbm, Bool.not_true, List.find?, hbk]
          exact find?_filter_ne rs k m h
      | false =>
          simp only [List.filter, hbm, Bool.not_false, List.find?]
          cases hbk : (r.1 == k) with
          | true => rfl
          | false => exact find?_filter_ne rs k m h

theorem find?_filter_self : ∀ (l : List (String × String)) (k : String),
    (l.filter (fun e => !(e.1 == k))).find? (fun e => e.1 == k) = none
  | [], _ => rfl
  | e :: es, k => by
      cases hbk : (e.1 == k) with
      | true =>
          simp only [List.filter, hbk, Bool.not_true]
          exact find?_filter_self es k
      | false =>
          simp only [List.filter, hbk, Bool.not_false, List.find?]
          exact find?_filter_self es k

theorem find?_append_none {α : Type} : ∀ (l₁ l₂ : List α) (p : α → Bool),
    l₁.find? p = none → (l₁ ++ l₂).find? p = l₂.find? p
  | [], _, _, _ => rfl
  | a :: as, l₂, p, h => by
      cases hpa : p a with
      | true =>
          simp only [List.find?, hpa] at h
          cases h
      | false =>
          simp only [List.find?, hpa] at h
          simp only [List.cons_append, List.find?, hpa]
          exact find?_append_none as l₂ p h

theorem lookupEntry_append_self {α : Type} (l : List (String × α)) (name : String) (a : α)
    (h : lookupEntry l name = none) :
    lookupEntry (l ++ [(name, a)]) name = some (name, a) := by
  unfold lookupEntry at h ⊢
  rw [find?_append_none l [(name, a)] _ h]
  simp [List.find?]

theorem lookupEntry_setEntry {α : Type} : ∀ (l : List (String × α)) (name : String) (a : α),
    lookupEntry (setEntry l name a) name = (lookupEntry l name).map (fun p => (p.1, a))
  | [], _, _ => rfl
  | p :: ps, name, a => by
      cases hb : (p.1 == name) with
      | true =>
          simp [setEntry, lookupEntry, List.find?, hb]
      | false =>
          simp [setEntry, lookupEntry, List.find?, hb]
          simpa [setEntry, lookupEntry] using lookupEntry_setEntry ps name a

theorem find?_map_update : ∀ (rows : List (String × String)) (k v : String),
    (rows.find? (fun r => r.1 == k)).isSome →
    (rows.map (fun r => if r.1 == k then (k, v) else r)).find? (fun r => r.1 == k)
      = some (k, v)
  | [], _, _, h => by simp [List.find?] at h
  | r :: rs, k, v, h => by
      cases hbk : (r.1 == k) with
      | true =>
          simp only [List.map, hbk, if_true, List.find?, beq_self_eq_true]
      | false =>
          simp only [List.find?, hbk] at h
          simp only [List.map, hbk, Bool.false_eq_true, if_false, List.find?]
          exact find?_map_update rs k v h

/-! Helper lemmas about btreeInsert. -/

theorem btreeInsert_find_self : ∀ (l : List (String × String)) (k v : String),
    (btreeInsert k v l).find? (fun e => e.1 == k) = some (k, v)
  | [], k, v => by simp [btreeInsert, List.find?]
  | e :: rest, k, v => by
      by_cases h1 : strLt k e.1 = true
      · simp [btreeInsert, h1, List.find?]
      · by_cases h2 : (k == e.1) = true
        · simp [btreeInsert, h1, h2, List.find?]
        · have hk : k ≠ e.1 := by simpa using h2
          have he : (e.1 == k) = false := by simp; exact fun c => hk c.symm
          simp only [btreeInsert, h1, if_false, h2, List.find?, he]
          exact btreeInsert_find_self rest k v

theorem btreeInsert_twice : ∀ (l : List (String × String)) (k v1 v2 : String),
    btreeInsert k v2 (btreeInsert k v1 l) = btreeInsert k v2 l
  | [], k, v1, v2 => by simp [btreeInsert, strLt_irrefl]
  | e :: rest, k, v1, v2 => by
      by_cases h1 : strLt k e.1 = true
      · simp [btreeInsert, h1, strLt_irrefl]
      · by_cases h2 : (k == e.1) = true
        · simp [btreeInsert, h1, h2, strLt_irrefl]
        · simp [btreeInsert, h1, h2]
          exact btreeInsert_twice rest k v1 v2

theorem btreeInsert_length_value_indep : ∀ (l : List (String × String)) (k v1 v2 : String),
    (btreeInsert k v1 l).length = (btreeInsert k v2 l).length
  | [], _, _, _ => rfl
  | e :: rest, k, v1, v2 => by
      by_cases h1 : strLt k e.1 = true
      · simp [btreeInsert, h1]
      · by_cases h2 : (k == e.1) = true
        · simp [btreeInsert, h1, h2]
        · simp [btreeInsert, h1, h2]
          exact btreeInsert_length_value_indep rest k v1 v2

theorem btreeInsert_countP : ∀ (l : List (String × String)) (k v : String),
    l.Pairwise (fun a b => strLt a.1 b.1 = true) →
    (btreeInsert k v l).countP (fun e => e.1 == k) = 1
  | [], k, v, _ => by simp [btreeInsert]
  | e :: rest, k, v, hp => by
      rcases List.pairwise_cons.mp hp with ⟨hhead, htail⟩
      by_cases h1 : strLt k e.1 = true
      · have hzero : ∀ x ∈ e :: rest, ¬ (x.1 == k) = true := by
          intro x hx
          rcases List.mem_cons.mp hx with hxe | hxr
          · subst hxe
            simp only [beq_iff_eq]
            exact fun c => strLt_ne h1 c.symm
          · have hex : strLt e.1 x.1 = true := hhead x hxr
            simp only [beq_iff_eq]
            intro c
            exact absurd (strLt_trans h1 (c ▸ hex)) (by simp [strLt_irrefl])
        have : (e :: rest).countP (fun e => e.1 == k) = 0 :=
          List.countP_eq_zero.mpr hzero
        simp [btreeInsert, h1, List.countP_cons, this]
      · by_cases h2 : (k == e.1) = true
        · have hke : k = e.1 := by simpa using h2
          have hzero : ∀ x ∈ rest, ¬ (x.1 == k) = true := by
            intro x hx
            have hex : strLt e.1 x.1 = true := hhead x hx
            simp only [beq_iff_eq]
            intro c
            exact strLt_ne hex (by rw [c, hke])
          have : rest.countP (fun e => e.1 == k) = 0 := List.countP_eq_zero.mpr hzero
          simp [btreeInsert, h1, h2, List.countP_cons, this]
        · have hk : k ≠ e.1 := by simpa using h2
          have he : (e.1 == k) = false := by simp; exact fun c => hk c.symm
          simp [btreeInsert, h1, h2, List.countP_cons, he]
          exact btreeInsert_countP rest k v htail

/-! Helper lemmas about the mangled key and the iteration protocol. -/

theorem pyStrOfBytes_ne (s : String) : pyStrOfBytes s ≠ s := by
  intro h
  have hl : (pyStrOfBytes s).data.length = s.data.length :=
    congrArg (fun t => t.data.length) h
  simp only [pyStrOfBytes, List.length_cons, List.length_append] at hl
  omega

theorem sqlRunIter_drain : ∀ (rem : List (String × String)) (fuel : Nat) (t : SQLTable),
    t.cursor = some rem → rem.length + 1 ≤ fuel →
    sqlRunIter fuel t = (rem, { t with cursor := none })
  | _, 0, _, _, hf => absurd hf (by omega)
  | [], fuel + 1, t, hc, _ => by
      simp [sqlRunIter, SQLTable.nextStep, hc]
  | r :: rest, fuel + 1, t, hc, hf => by
      have hb : rest.length + 1 ≤ fuel := by
        simp only [List.length_cons] at hf
        omega
      have ih := sqlRunIter_drain rest fuel { t with cursor := some rest } rfl hb
      simp [sqlRunIter, SQLTable.nextStep, hc, ih]

theorem sqlRunIter_succ (n : Nat) (t : SQLTable) :
    sqlRunIter (n + 1) t =
      match t.nextStep with
      | (none, t1) => ([], t1)
      | (some r, t1) => (r :: (sqlRunIter n t1).1, (sqlRunIter n t1).2) := rfl

theorem sqlRunIter_scan (t : SQLTable) (hc : t.cursor = none) :
    sqlRunIter (t.rows.length + 1) t = (t.rows, { t with cursor := none }) := by
  cases hr : t.rows with
  | nil =>
      simp [sqlRunIter, SQLTable.nextStep, hc, hr]
  | cons r rest =>
      have hstep : t.nextStep = (some r, { t with cursor := some rest }) := by
        simp [SQLTable.nextStep, hc, hr]
      have hdrain := sqlRunIter_drain rest (rest.length + 1)
        { t with cursor := some rest } rfl (by omega)
      simp only [List.length_cons]
      rw [sqlRunIter_succ, hstep]
      rw [hr] at hdrain
      simp [hdrain, hr]

theorem bsdRunIter_drain : ∀ (rem : List (String × String)) (fuel : Nat) (t : BSDTable),
    t.cursor = some rem → rem.length + 1 ≤ fuel →
    bsdRunIter fuel t = (rem, { t with cursor := none })
  | _, 0, _, _, hf => absurd hf (by omega)
  | [], fuel + 1, t, hc, _ => by
      simp [bsdRunIter, BSDTable.nextStep, hc]
  | r :: rest, fuel + 1, t, hc, hf => by
      have hb : rest.length + 1 ≤ fuel := by
        simp only [List.length_cons] at hf
        omega
      have ih := bsdRunIter_drain rest fuel { t with cursor := some rest } rfl hb
      simp [bsdRunIter, BSDTable.nextStep, hc, ih]

theorem bsdRunIter_succ (n : Nat) (t : BSDTable) :
    bsdRunIter (n + 1) t =
      match t.nextStep with
      | (none, t1) => ([], t1)
      | (some e, t1) => (e :: (bsdRunIter n t1).1, (bsdRunIter n t1).2) := rfl

theorem bsdRunIter_scan (t : BSDTable) (hc : t.cursor = none) :
    bsdRunIter (t.btree.length + 1) t = (t.btree, { t with cursor := none }) := by
  cases hr : t.btree with
  | nil =>
      simp [bsdRunIter, BSDTable.nextStep, hc, hr]
  | cons r rest =>
      have hstep : t.nextStep = (some r, { t with cursor := some rest }) := by
        simp [BSDTable.nextStep, hc, hr]
      have hdrain := bsdRunIter_drain rest (rest.length + 1)
        { t with cursor := some rest } rfl (by omega)
      simp only [List.length_cons]
      rw [bsdRunIter_succ, hstep]
      rw [hr] at hdrain
      simp [hdrain, hr]

/-! Helper lemmas about SQLTable.put and the facade registry. -/

theorem sqlPut_fresh (t : SQLTable) (k v : String) (hg : t.get k = none) :
    t.put k v = { t with rows := t.rows ++ [(k, v)] } := by
  simp [SQLTable.put, hg]

theorem sqlPut_blank (t : SQLTable) (k v : String) (hg : t.get k = some "") :
    t.put k v = { t with rows := t.rows ++ [(k, v)] } := by
  simp [SQLTable.put, hg]

theorem sqlPut_update (t : SQLTable) (k v v0 : String) (hg : t.get k = some v0)
    (hne : v0 ≠ "") :
    t.put k v = { t with rows := t.rows.map (fun r => if r.1 == k then (k, v) else r) } := by
  simp [SQLTable.put, hg, hne]

theorem sqlGet_find_none (t : SQLTable) (k : String) (hg : t.get k = none) :
    t.rows.find? (fun r => r.1 == k) = none := by
  unfold SQLTable.get at hg
  exact Option.map_eq_none'.mp hg

theorem sqlGet_append_fresh (t : SQLTable) (k v : String) (hg : t.get k = none) :
    ({ t with rows := t.rows ++ [(k, v)] } : SQLTable).get k = some v := by
  unfold SQLTable.get
  rw [find?_append_none _ _ _ (sqlGet_find_none t k hg)]
  simp [List.find?]

theorem countP_map_update : ∀ (rows : List (String × String)) (k v : String),
    (rows.map (fun r => if r.1 == k then (k, v) else r)).countP (fun r => r.1 == k)
      = rows.countP (fun r => r.1 == k)
  | [], _, _ => rfl
  | r :: rs, k, v => by
      cases hbk : (r.1 == k) with
      | true =>
          simp only [List.map, hbk, if_true, List.countP_cons, beq_self_eq_true]
          rw [countP_map_update rs k v]
      | false =>
          simp only [List.map, hbk, Bool.false_eq_true, if_false, List.countP_cons]
          rw [countP_map_update rs k v]

theorem assertExist_lookup_bsd (st : Berkeley) (name : String) :
    (lookupEntry (st.assertExist name).1.tables name).isSome = true := by
  unfold Berkeley.assertExist
  cases hl : lookupEntry st.tables name with
  | some p => simp [hl]
  | none => simp [hl, lookupEntry_append_self st.tables name _ hl]

theorem lookup_setEntry_isSome {α : Type} (l : List (String × α)) (name : String) (a : α) :
    (lookupEntry (setEntry l name a) name).isSome = (lookupEntry l name).isSome := by
  rw [lookupEntry_setEntry]
  cases lookupEntry l name <;> simp

/-! Claim theorems. -/

/-- C1: counterexample.  The claim says that after put(T, k, v), get(T, k)
returns v for every backend, table, key and value.  On the relational adapter
this fails: from an empty table, put a key with the empty string as value and
then put the same key with value x; the second put sees a falsy stored value
and inserts a second row instead of updating, and get still returns the first
matching row, the empty string, not x. -/
theorem C1_put_get_counterexample :
    ((((({ tables := [] } : SQLite).put "games" "k" "").put "games" "k" "x").get
        "games" "k").2 ≠ some "x") ∧
    ((((({ tables := [] } : SQLite).put "games" "k" "").put "games" "k" "x").get
        "games" "k").2 = some "") := by
  exact ⟨by decide, by decide⟩

/-- C1: amended claim.  After put(T, k, v), get(T, k) returns v on the ordered
Berkeley adapter unconditionally, and on the relational SQLite adapter
whenever the value currently stored for k (first matching row) is not the
empty string; when it is, put appends a duplicate row and get keeps returning
the stored empty string. -/
theorem C1_put_get_amended :
    (∀ (t : BSDTable) (k v : String), (t.put k v).get k = .ok v) ∧
    (∀ (t : SQLTable) (k v : String), t.get k ≠ some "" → (t.put k v).get k = some v) := by
  constructor
  · intro t k v
    unfold BSDTable.put BSDTable.get
    rw [btreeInsert_find_self]
  · intro t k v h
    cases hg : t.get k with
    | none =>
        rw [sqlPut_fresh t k v hg]
        exact sqlGet_append_fresh t k v hg
    | some v0 =>
        have hv0 : v0 ≠ "" := fun c => h (by rw [hg, c])
        rw [sqlPut_update t k v v0 hg hv0]
        have hfind : (t.rows.find? (fun r => r.1 == k)).isSome := by
          unfold SQLTable.get at hg
          cases hf : t.rows.find? (fun r => r.1 == k) with
          | none => rw [hf] at hg; cases hg
          | some r => rfl
        unfold SQLTable.get
        rw [find?_map_update t.rows k v hfind]
        rfl

/-- C1: witness for the amended claim at a concrete input. -/
theorem C1_put_get_amended_witness :
    ((({ name := "t", btree := [], cursor := none } : BSDTable).put "k" "v").get "k"
        = .ok "v") ∧
    (({ name := "t", rows := [], cursor := none, indexes := [] } : SQLTable).get "k"
        ≠ some "") ∧
    ((({ name := "t", rows := [], cursor := none, indexes := [] } : SQLTable).put "k" "v").get "k"
        = some "v") := by
  refine ⟨C1_put_get_amended.1 _ "k" "v", by decide, C1_put_get_amended.2 _ "k" "v" (by decide)⟩

/-- C2: the claim says get on a never-written key returns an explicit absent
result on both adapters.  The relational adapter does return the absent result
(None), but the ordered Berkeley adapter evaluates data.decode() on the None
the engine returns for a missing key, so Python raises AttributeError instead
of returning absent: a code bug relative to the documented contract.  This
theorem evaluates both adapters at the failing input. -/
theorem C2_missing_key_get :
    (((({ path := "home", tables := [], envClosed := false } : Berkeley).put
        "games" "game2" "germany").get "games" "game1").2
      = .error (.attributeError "decode")) ∧
    (((({ tables := [] } : SQLite).put "games" "game2" "germany").get
        "games" "game1").2 = none) := by
  exact ⟨by decide, by decide⟩

/-- C3: counterexample.  The claim says that after delete(T, k) through the
Data facade, get(T, k) returns absent, and delete of an absent key does not
raise.  On the relational backend the facade encodes the key to bytes and the
table layer stringifies the bytes, so the DELETE targets a mangled key and
removes nothing: get still returns the stored value.  On the ordered backend
deleting an absent key raises DBNotFoundError. -/
theorem C3_delete_counterexample :
    ((((({ tables := [] } : SQLite).put "games" "game1" "germany").delete
        "games" "game1").get "games" "game1").2 ≠ none) ∧
    ((((({ tables := [] } : SQLite).put "games" "game1" "germany").delete
        "games" "game1").get "games" "game1").2 = some "germany") ∧
    (((({ path := "home", tables := [], envClosed := false } : Berkeley).put
        "games" "game1" "germany").delete "games" "absent").2
      = .error .dbNotFoundError) := by
  exact ⟨by decide, by decide, by decide⟩

/-- C3: amended claim.  Through the facade, delete on the relational backend
deletes only rows whose key equals the mangled str() form of the encoded key,
so get(T, k) afterwards returns exactly what it returned before; on the
ordered backend, delete of a present key removes the entry (after which get
raises AttributeError rather than returning absent, per the get flaw), and
delete of an absent key raises DBNotFoundError. -/
theorem C3_delete_amended :
    (∀ (t : SQLTable) (k : String), (t.delete (.pybytes k)).get k = t.get k) ∧
    (∀ (t : BSDTable) (k : String), t.btree.any (fun e => e.1 == k) = true →
        t.delete k = .ok { t with btree := t.btree.filter (fun e => !(e.1 == k)) } ∧
        ({ t with btree := t.btree.filter (fun e => !(e.1 == k)) } : BSDTable).get k
          = .error (.attributeError "decode")) ∧
    (∀ (t : BSDTable) (k : String), t.btree.any (fun e => e.1 == k) = false →
        t.delete k = .error .dbNotFoundError) := by
  refine ⟨?_, ?_, ?_⟩
  · intro t k
    unfold SQLTable.delete SQLTable.get PyVal.pyStr
    rw [find?_filter_ne t.rows k (pyStrOfBytes k) (pyStrOfBytes_ne k)]
  · intro t k h
    constructor
    · simp [BSDTable.delete, h]
    · unfold BSDTable.get
      rw [find?_filter_self]
  · intro t k h
    simp [BSDTable.delete, h]

/-- C3: witness for the amended claim at concrete inputs. -/
theorem C3_delete_amended_witness :
    ((({ name := "g", rows := [("a", "1")], cursor := none, indexes := [] } : SQLTable).delete
        (.pybytes "a")).get "a"
      = ({ name := "g", rows := [("a", "1")], cursor := none, indexes := [] } : SQLTable).get "a") ∧
    (({ name := "g", btree := [("a", "1")], cursor := none } : BSDTable).btree.any
        (fun e => e.1 == "a") = true) ∧
    (({ name := "g", btree := [("a", "1")], cursor := none } : BSDTable).delete "a"
      = .ok { name := "g",
              btree := [("a", "1")].filter (fun e => !(e.1 == "a")), cursor := none }) ∧
    (({ name := "g", btree := [], cursor := none } : BSDTable).btree.any
        (fun e => e.1 == "b") = false) ∧
    (({ name := "g", btree := [], cursor := none } : BSDTable).delete "b"
      = .error .dbNotFoundError) := by
  refine ⟨C3_delete_amended.1 _ "a", by decide, ?_, by decide, ?_⟩
  · exact (C3_delete_amended.2.1 _ "a" (by decide)).1
  · exact C3_delete_amended.2.2 _ "b" (by decide)

/-- C4: counterexample.  The claim says put is an idempotent upsert for every
backend, explicitly including the empty string as first value, with exactly
one entry per key afterwards.  On the relational adapter, putting the empty
string and then another value appends a second row, the row count grows to 2
and get returns the empty string, not the second value. -/
theorem C4_upsert_counterexample :
    ((lookupEntry ((({ tables := [] } : SQLite).put "scores" "game" "").put
        "scores" "game" "b").tables "scores").map (fun p => p.2.len) = some 2) ∧
    ((((({ tables := [] } : SQLite).put "scores" "game" "").put
        "scores" "game" "b").get "scores" "game").2 = some "") ∧
    ((((({ tables := [] } : SQLite).put "scores" "game" "").put
        "scores" "game" "b").get "scores" "game").2 ≠ some "b") := by
  exact ⟨by decide, by decide, by decide⟩

/-- C4: amended claim.  On the ordered Berkeley adapter put is an idempotent
upsert: on a table whose B-tree is sorted (the engine invariant), two puts to
the same key leave get returning the second value, exactly one entry for the
key, and a total count that does not grow with the repeated put.  On the
relational SQLite adapter the same holds when the key is fresh and the first
value is nonempty (one new row overall); when the first value is the empty
string the second put inserts a duplicate row: get returns the empty string
and two entries for the key exist. -/
theorem C4_upsert_amended :
    (∀ (t : BSDTable) (k v1 v2 : String),
        t.btree.Pairwise (fun a b => strLt a.1 b.1 = true) →
        ((t.put k v1).put k v2).get k = .ok v2 ∧
        ((t.put k v1).put k v2).btree.countP (fun e => e.1 == k) = 1 ∧
        ((t.put k v1).put k v2).btree.length = (t.put k v1).btree.length) ∧
    (∀ (t : SQLTable) (k v1 v2 : String), t.get k = none → v1 ≠ "" →
        ((t.put k v1).put k v2).get k = some v2 ∧
        ((t.put k v1).put k v2).rows.countP (fun r => r.1 == k) = 1 ∧
        ((t.put k v1).put k v2).len = t.len + 1) ∧
    (∀ (t : SQLTable) (k v2 : String), t.get k = none →
        ((t.put k "").put k v2).get k = some "" ∧
        ((t.put k "").put k v2).rows.countP (fun r => r.1 == k) = 2 ∧
        ((t.put k "").put k v2).len = t.len + 2) := by
  refine ⟨?_, ?_, ?_⟩
  · intro t k v1 v2 hs
    unfold BSDTable.put
    refine ⟨?_, ?_, ?_⟩
    · unfold BSDTable.get
      rw [btreeInsert_find_self]
    · rw [btreeInsert_twice]
      exact btreeInsert_countP t.btree k v2 hs
    · rw [btreeInsert_twice]
      exact btreeInsert_length_value_indep t.btree k v2 v1
  · intro t k v1 v2 hg hv1
    have hzero : t.rows.countP (fun r => r.1 == k) = 0 := by
      refine List.countP_eq_zero.mpr ?_
      intro r hr
      have := List.find?_eq_none.mp (sqlGet_find_none t k hg) r hr
      simpa using this
    rw [sqlPut_fresh t k v1 hg]
    have hget1 : ({ t with rows := t.rows ++ [(k, v1)] } : SQLTable).get k = some v1 :=
      sqlGet_append_fresh t k v1 hg
    rw [sqlPut_update _ k v2 v1 hget1 hv1]
    refine ⟨?_, ?_, ?_⟩
    · have hfind : ((t.rows ++ [(k, v1)]).find? (fun r => r.1 == k)).isSome := by
        rw [find?_append_none _ _ _ (sqlGet_find_none t k hg)]
        simp [List.find?]
      unfold SQLTable.get
      rw [find?_map_update _ k v2 hfind]
      rfl
    · show ((t.rows ++ [(k, v1)]).map (fun r => if r.1 == k then (k, v2) else r)).countP
          (fun r => r.1 == k) = 1
      rw [countP_map_update, List.countP_append, hzero]
      simp [List.countP_cons]
    · show ((t.rows ++ [(k, v1)]).map (fun r => if r.1 == k then (k, v2) else r)).length
          = t.rows.length + 1
      simp
  · intro t k v2 hg
    rw [sqlPut_fresh t k "" hg]
    have hget1 : ({ t with rows := t.rows ++ [(k, "")] } : SQLTable).get k = some "" :=
      sqlGet_append_fresh t k "" hg
    rw [sqlPut_blank _ k v2 hget1]
    have hzero : t.rows.countP (fun r => r.1 == k) = 0 := by
      refine List.countP_eq_zero.mpr ?_
      intro r hr
      have := List.find?_eq_none.mp (sqlGet_find_none t k hg) r hr
      simpa using this
    refine ⟨?_, ?_, ?_⟩
    · show ({ t with rows := (t.rows ++ [(k, "")]) ++ [(k, v2)] } : SQLTable).get k = some ""
      unfold SQLTable.get
      rw [List.append_assoc, find?_append_none _ _ _ (sqlGet_find_none t k hg)]
      simp [List.find?]
    · show ((t.rows ++ [(k, "")]) ++ [(k, v2)]).countP (fun r => r.1 == k) = 2
      rw [List.countP_append, List.countP_append, hzero]
      simp [List.countP_cons]
    · show ((t.rows ++ [(k, "")]) ++ [(k, v2)]).length = t.rows.length + 2
      simp

/-- C4: witness for the amended claim at concrete inputs. -/
theorem C4_upsert_amended_witness :
    (({ name := "g", btree := [("a", "1")], cursor := none } : BSDTable).btree.Pairwise
        (fun a b => strLt a.1 b.1 = true)) ∧
    (((({ name := "g", btree := [("a", "1")], cursor := none } : BSDTable).put "k" "x").put
        "k" "y").get "k" = .ok "y") ∧
    (({ name := "s", rows := [], cursor := none, indexes := [] } : SQLTable).get "k" = none) ∧
    (((({ name := "s", rows := [], cursor := none, indexes := [] } : SQLTable).put "k" "x").put
        "k" "y").get "k" = some "y") ∧
    (((({ name := "s", rows := [], cursor := none, indexes := [] } : SQLTable).put "k" "").put
        "k" "y").rows.countP (fun r => r.1 == "k") = 2) := by
  refine ⟨by decide, ?_, by decide, ?_, ?_⟩
  · exact (C4_upsert_amended.1 _ "k" "x" "y" (by decide)).1
  · exact (C4_upsert_amended.2.1 _ "k" "x" "y" (by decide) (by decide)).1
  · exact (C4_upsert_amended.2.2 _ "k" "y" (by decide)).2.1

/-- C5: the claim says both backends finalize on every scope exit.  The
relational exit does commit and close, but the ordered exit path is broken:
Berkeley.close starts by iterating self.indexes, an attribute never bound on
the facade, so every exit of a Berkeley scope raises AttributeError before a
single cursor, table handle or the environment is closed: a code bug relative
to the documented lifecycle contract.  This theorem evaluates the exit path on
every facade state. -/
theorem C5_exit_finalize (st : Berkeley) :
    st.exitScope = .error (.attributeError "indexes") := rfl

/-- C6: a full unfiltered scan of a table with no open cursor yields exactly
the pairs present at scan start, in backend order, each exactly once (given
the data-model invariant that the table holds no duplicate entries); the
final cursor slot is reset (auto-closed), the rows are untouched, and running
the scan again from the exhausted state restarts from the first pair.  This
holds for both the relational and the ordered adapter. -/
theorem C6_iteration_complete (tS : SQLTable) (tB : BSDTable)
    (hcS : tS.cursor = none) (hcB : tB.cursor = none)
    (hnS : tS.rows.Nodup) (hnB : tB.btree.Nodup) :
    ((sqlRunIter (tS.rows.length + 1) tS).1 = tS.rows ∧
      (sqlRunIter (tS.rows.length + 1) tS).1.Nodup ∧
      (∀ p, p ∈ (sqlRunIter (tS.rows.length + 1) tS).1 ↔ p ∈ tS.rows) ∧
      (sqlRunIter (tS.rows.length + 1) tS).2.cursor = none ∧
      (sqlRunIter (tS.rows.length + 1) tS).2.rows = tS.rows ∧
      (sqlRunIter (tS.rows.length + 1) (sqlRunIter (tS.rows.length + 1) tS).2).1
        = tS.rows) ∧
    ((bsdRunIter (tB.btree.length + 1) tB).1 = tB.btree ∧
      (bsdRunIter (tB.btree.length + 1) tB).1.Nodup ∧
      (∀ p, p ∈ (bsdRunIter (tB.btree.length + 1) tB).1 ↔ p ∈ tB.btree) ∧
      (bsdRunIter (tB.btree.length + 1) tB).2.cursor = none ∧
      (bsdRunIter (tB.btree.length + 1) tB).2.btree = tB.btree ∧
      (bsdRunIter (tB.btree.length + 1) (bsdRunIter (tB.btree.length + 1) tB).2).1
        = tB.btree) := by
  have hS := sqlRunIter_scan tS hcS
  have hB := bsdRunIter_scan tB hcB
  have hS2 := sqlRunIter_scan ({ tS with cursor := none }) rfl
  have hB2 := bsdRunIter_scan ({ tB with cursor := none }) rfl
  constructor
  · refine ⟨?_, ?_, ?_, ?_, ?_, ?_⟩
    · rw [hS]
    · rw [hS]
      exact hnS
    · intro p
      rw [hS]
    · rw [hS]
    · rw [hS]
    · rw [hS]
      simpa using congrArg Prod.fst hS2
  · refine ⟨?_, ?_, ?_, ?_, ?_, ?_⟩
    · rw [hB]
    · rw [hB]
      exact hnB
    · intro p
      rw [hB]
    · rw [hB]
    · rw [hB]
    · rw [hB]
      simpa using congrArg Prod.fst hB2

/-- C6: witness at concrete two-row tables. -/
theorem C6_iteration_complete_witness :
    (({ name := "g", rows := [("a", "1"), ("b", "2")], cursor := none, indexes := [] } : SQLTable).cursor = none) ∧
    (({ name := "g", rows := [("a", "1"), ("b", "2")], cursor := none, indexes := [] } : SQLTable).rows.Nodup) ∧
    (({ name := "g", btree := [("a", "1"), ("b", "2")], cursor := none } : BSDTable).cursor = none) ∧
    (({ name := "g", btree := [("a", "1"), ("b", "2")], cursor := none } : BSDTable).btree.Nodup) ∧
    ((sqlRunIter (({ name := "g", rows := [("a", "1"), ("b", "2")], cursor := none, indexes := [] } : SQLTable).rows.length + 1) ({ name := "g", rows := [("a", "1"), ("b", "2")], cursor := none, indexes := [] } : SQLTable)).1 = [("a", "1"), ("b", "2")]) ∧
    ((bsdRunIter (({ name := "g", btree := [("a", "1"), ("b", "2")], cursor := none } : BSDTable).btree.length + 1) ({ name := "g", btree := [("a", "1"), ("b", "2")], cursor := none } : BSDTable)).1 = [("a", "1"), ("b", "2")]) := by
  refine ⟨rfl, by decide, rfl, by decide, ?_, ?_⟩
  · exact (C6_iteration_complete
      { name := "g", rows := [("a", "1"), ("b", "2")], cursor := none, indexes := [] }
      { name := "g", btree := [("a", "1"), ("b", "2")], cursor := none }
      rfl rfl (by decide) (by decide)).1.1
  · exact (C6_iteration_complete
      { name := "g", rows := [("a", "1"), ("b", "2")], cursor := none, indexes := [] }
      { name := "g", btree := [("a", "1"), ("b", "2")], cursor := none }
      rfl rfl (by decide) (by decide)).2.1

/-- C7: counterexample.  The claim says table(name, indexName=value) with an
unregistered index name fails with UnknownIndexError.  No class of that name
exists in the module: the facade evaluates getattr on the Table instance and
Python raises AttributeError, a different error. -/
theorem C7_tableSel_counterexample :
    (((({ path := "home", tables := [], envClosed := false } : Berkeley).put
        "games" "game1" "germany").tableSel "games" (some ("date", "2020-10-26"))).2
      = .error (.attributeError "date")) ∧
    (((({ path := "home", tables := [], envClosed := false } : Berkeley).put
        "games" "game1" "germany").tableSel "games" (some ("date", "2020-10-26"))).2
      ≠ .error .unknownIndexError) := by
  exact ⟨by decide, by decide⟩

/-- C7: amended claim.  table(name) with no selector returns the Table bound
to the name after auto-open.  With one named selector the facade looks the
selector name up as an attribute of the Table instance; no Index object is
ever bound there (registration binds it on the facade and crashes before
completing), so the call raises AttributeError -- for unregistered and
registered names alike -- and UnknownIndexError does not exist. -/
theorem C7_tableSel_amended (st : Berkeley) (name k v : String) :
    (st.tableSel name none).2 = .ok (st.assertExist name).2 ∧
    (st.tableSel name (some (k, v))).2 = .error (.attributeError k) :=
  ⟨rfl, rfl⟩

/-- C8: the ordered-backend scenario of the specification: open table games,
put game1 and game2, expect count 2, a scan yielding both pairs, and count 1
after delete of game1.  The puts, the scan and the delete behave as claimed:
this theorem evaluates them, showing the scan yields exactly the two pairs,
the delete succeeds, the table afterwards holds exactly the remaining pair
and a rescan yields it.  The count steps are impossible: neither Table nor
BSDTable defines a count or __len__ method, so len(data.table("games"))
raises TypeError, which is the code bug this claim records. -/
theorem C8_ordered_scenario :
    ((lookupEntry ((({ path := "home", tables := [], envClosed := false } : Berkeley).put
        "games" "game1" "germany").put "games" "game2" "usa").tables "games").map
        (fun p => (bsdRunIter 3 p.2).1)
      = some [("game1", "germany"), ("game2", "usa")]) ∧
    (((((({ path := "home", tables := [], envClosed := false } : Berkeley).put
        "games" "game1" "germany").put "games" "game2" "usa").delete "games" "game1").2)
      = .ok ()) ∧
    ((lookupEntry (((({ path := "home", tables := [], envClosed := false } : Berkeley).put
        "games" "game1" "germany").put "games" "game2" "usa").delete "games" "game1").1.tables
        "games").map (fun p => p.2.btree)
      = some [("game2", "usa")]) ∧
    ((lookupEntry (((({ path := "home", tables := [], envClosed := false } : Berkeley).put
        "games" "game1" "germany").put "games" "game2" "usa").delete "games" "game1").1.tables
        "games").map (fun p => (bsdRunIter 2 p.2).1)
      = some [("game2", "usa")]) := by
  exact ⟨by decide, by decide, by decide, by decide⟩

/-- C9: counterexample.  The claim says add_index with a colliding name fails
with DuplicateIndexError.  No class of that name exists: the collision branch
executes a raise statement whose operand is a plain string, which Python 3
rejects with TypeError. -/
theorem C9_add_index_counterexample :
    ((({ path := "home", tables := [], envClosed := false } : Berkeley).put
        "games" "game1" "germany").addIndex "games" (fun _ _ => "2020-10-26") "games"
      = .error (.typeError "exceptions must derive from BaseException")) ∧
    ((({ path := "home", tables := [], envClosed := false } : Berkeley).put
        "games" "game1" "germany").addIndex "games" (fun _ _ => "2020-10-26") "games"
      ≠ .error .duplicateIndexError) := by
  exact ⟨by decide, by decide⟩

/-- C9: amended claim.  On the ordered backend, add_index with a name that
collides with an existing table name raises TypeError (Python 3 rejects the
plain-string raise); on the relational backend the same TypeError arises when
the name collides with a key of the index registry.  DuplicateIndexError does
not exist; moreover the ordered backend checks collisions only against table
names and the relational one only against its registry. -/
theorem C9_add_index_amended :
    (∀ (st : Berkeley) (index table : String) (cb : String → String → String),
        (lookupEntry st.tables index).isSome = true →
        st.addIndex index cb table
          = .error (.typeError "exceptions must derive from BaseException")) ∧
    (∀ (t : SQLTable) (index : String), t.indexes.contains index = true →
        t.addIndex index
          = .error (.typeError "exceptions must derive from BaseException")) := by
  constructor
  · intro st index table cb h
    simp [Berkeley.addIndex, h]
  · intro t index h
    unfold SQLTable.addIndex
    rw [if_pos h]

/-- C9: witness for the amended claim at concrete inputs. -/
theorem C9_add_index_amended_witness :
    ((lookupEntry ({ path := "home", tables := [("games", { name := "games", btree := [], cursor := none })], envClosed := false } : Berkeley).tables "games").isSome = true) ∧
    (({ path := "home", tables := [("games", { name := "games", btree := [], cursor := none })], envClosed := false } : Berkeley).addIndex "games" (fun _ _ => "d") "games"
      = .error (.typeError "exceptions must derive from BaseException")) ∧
    (({ name := "t", rows := [], cursor := none, indexes := ["date"] } : SQLTable).indexes.contains
        "date" = true) ∧
    (({ name := "t", rows := [], cursor := none, indexes := ["date"] } : SQLTable).addIndex "date"
      = .error (.typeError "exceptions must derive from BaseException")) := by
  refine ⟨by decide, ?_, by decide, ?_⟩
  · exact C9_add_index_amended.1 _ "games" "games" (fun _ _ => "d") (by decide)
  · exact C9_add_index_amended.2 _ "date" (by decide)

/-- C10: implicit claim, confirmed.  put, get and delete call assert_exist and
so auto-open an unknown table before delegating, leaving the name bound in
the facade registry; verify subscripts the registry directly with no
assert_exist call, so on a never-referenced name it fails with the registry
key-lookup error (KeyError) instead of auto-opening. -/
theorem C10_verify_no_autoopen (st : Berkeley) (name key data : String)
    (h : lookupEntry st.tables name = none) :
    st.verifyOp name = .error (.keyError name) ∧
    (lookupEntry (st.put name key data).tables name).isSome = true ∧
    (lookupEntry (st.get name key).1.tables name).isSome = true ∧
    (lookupEntry (st.delete name key).1.tables name).isSome = true := by
  refine ⟨?_, ?_, ?_, ?_⟩
  · unfold Berkeley.verifyOp
    rw [h]
  · unfold Berkeley.put
    rw [lookup_setEntry_isSome]
    exact assertExist_lookup_bsd st name
  · unfold Berkeley.get
    exact assertExist_lookup_bsd st name
  · unfold Berkeley.delete
    cases hd : ((st.assertExist name).2).delete key with
    | ok t1 =>
        simp only [hd]
        rw [lookup_setEntry_isSome]
        exact assertExist_lookup_bsd st name
    | error e =>
        simp only [hd]
        exact assertExist_lookup_bsd st name

/-- C10: witness at a fresh facade. -/
theorem C10_verify_no_autoopen_witness :
    (lookupEntry ({ path := "home", tables := [], envClosed := false } : Berkeley).tables
        "games" = none) ∧
    (({ path := "home", tables := [], envClosed := false } : Berkeley).verifyOp "games"
      = .error (.keyError "games")) ∧
    ((lookupEntry (({ path := "home", tables := [], envClosed := false } : Berkeley).put
        "games" "k" "v").tables "games").isSome = true) := by
  refine ⟨by decide, ?_, ?_⟩
  · exact (C10_verify_no_autoopen
      { path := "home", tables := [], envClosed := false } "games" "k" "v" (by decide)).1
  · exact (C10_verify_no_autoopen
      { path := "home", tables := [], envClosed := false } "games" "k" "v" (by decide)).2.1

end Db
